import Mathlib

/-!
Shallow embedding of the Miyabi task-orchestration core
(crates/miyabi-types, crates/miyabi-agents) in Lean 4.

Modelling conventions:
* `Uuid::new_v4()` draws a fresh random 128-bit id; we model the id supply as
  a counter in a `World` state, so each draw yields a value distinct from all
  previous draws within a run.
* `chrono::Utc::now()` is modelled as reading the `now` field of the `World`
  state.
* `anyhow::Error` is modelled as its human-readable message (a `String`).
* Rust's `HashMap<AgentKind, BuiltInAgent>` is modelled as a function
  `AgentKind → Option BuiltInAgent`.
* A `&WorkItem` shared borrow is an immutable input: the callee cannot change
  the caller's value.
-/

namespace Miyabi

/-- Model of `uuid::Uuid` (an opaque 128-bit identifier). -/
abbrev Uuid := Nat

/-- Model of `chrono::DateTime<Utc>` (an opaque timestamp). -/
abbrev DateTime := Nat

/-- Model of `anyhow::Error`: the error message. -/
abbrev Error := String

/-- Ambient effect state: the fresh-uuid supply for `Uuid::new_v4()` and the
clock read by `Utc::now()`. -/
structure World where
  nextUuid : Nat
  now : DateTime
deriving DecidableEq

/-- `miyabi-types`: `enum AgentKind`. -/
inductive AgentKind where
  | Coordinator
  | CodeGen
  | Review
  | Test
  | Deploy
  | Issue
deriving DecidableEq

/-- `miyabi-types`: `enum TaskPriority`. -/
inductive TaskPriority where
  | Critical
  | High
  | Medium
  | Low
deriving DecidableEq

/-- `miyabi-types`: `impl Default for TaskPriority` returns `Medium`. -/
def TaskPriority.default : TaskPriority := TaskPriority.Medium

/-- `miyabi-types`: `struct AgentTask`. -/
structure AgentTask where
  id : Uuid
  title : String
  description : String
  agent : AgentKind
  priority : TaskPriority
deriving DecidableEq

/-- `miyabi-types`: `struct Artifact`. -/
structure Artifact where
  name : String
  path : Option String
  description : Option String
deriving DecidableEq

/-- `miyabi-types`: `struct AgentOutcome`. -/
structure AgentOutcome where
  task_id : Uuid
  success : Bool
  summary : String
  artifacts : List Artifact
  created_at : DateTime
deriving DecidableEq

/-- `miyabi-types`: `enum WorkItemStatus`. -/
inductive WorkItemStatus where
  | Pending
  | InProgress
  | Completed
  | Failed
deriving DecidableEq

/-- `miyabi-types`: `struct WorkItem`. -/
structure WorkItem where
  issue_number : Option Nat
  title : String
  description : String
  status : WorkItemStatus
  tasks : List AgentTask
deriving DecidableEq

/-- `miyabi-types`: `AgentTask::new` — fresh uuid from the supply, default
priority. -/
def AgentTask.new (title description : String) (agent : AgentKind) (w : World) :
    AgentTask × World :=
  ({ id := w.nextUuid
     title := title
     description := description
     agent := agent
     priority := TaskPriority.default },
   { w with nextUuid := w.nextUuid + 1 })

/-- `miyabi-agents/execution.rs`: `struct AgentContext` — opaque key-value
environment (model of `HashMap<String, String>`). -/
structure AgentContext where
  environment : List (String × String)
deriving DecidableEq

/-- `miyabi-agents/execution.rs`: `AgentContext::default()`. -/
def AgentContext.default : AgentContext := { environment := [] }

/-- `miyabi-agents/execution.rs`: `struct ExecutionReport`. -/
structure ExecutionReport where
  task : AgentTask
  outcome : AgentOutcome
deriving DecidableEq

/-- `miyabi-agents/execution.rs`: `success_outcome` — outcome with
`task_id = task.id`, `success = true`, empty artifacts, timestamp from
`Utc::now()`. -/
def success_outcome (task : AgentTask) (summary : String) (w : World) :
    AgentOutcome :=
  { task_id := task.id
    success := true
    summary := summary
    artifacts := []
    created_at := w.now }

/-- `miyabi-agents/execution.rs`: `failure_outcome`. -/
def failure_outcome (task : AgentTask) (summary : String) (w : World) :
    AgentOutcome :=
  { task_id := task.id
    success := false
    summary := summary
    artifacts := []
    created_at := w.now }

/-- `miyabi-agents/coordinator.rs`: `impl AgentExecutor for CoordinatorAgent`,
`fn run` — always succeeds with the canned summary, consuming no uuid. -/
def CoordinatorAgent.run (task : AgentTask) (_ctx : AgentContext) (w : World) :
    Except Error (AgentOutcome × World) :=
  Except.ok (success_outcome task "Task queued for specialist agents (simulated)" w, w)

/-- `miyabi-agents/coordinator.rs`: `CoordinatorAgent::build_plan`.
Each `tasks.push(AgentTask { field overrides, ..AgentTask::new(..) })`
evaluates `AgentTask::new` (drawing a fresh uuid for `id`) and then overrides
`agent`, `title`, `description` and `priority`. `\x27` is the ASCII
apostrophe from the Rust format string `"Review the problem statement for '{}'"`. -/
def CoordinatorAgent.build_plan (work_item : WorkItem) (w : World) :
    List AgentTask × World :=
  let (base1, w1) := AgentTask.new "analyze" "analyze" AgentKind.Issue w
  let task1 : AgentTask :=
    { base1 with
      agent := AgentKind.Issue
      title := "Analyze issue context"
      description := "Review the problem statement for \x27" ++ work_item.title ++ "\x27"
      priority := TaskPriority.High }
  let (base2, w2) := AgentTask.new "codegen" "codegen" AgentKind.CodeGen w1
  let task2 : AgentTask :=
    { base2 with
      agent := AgentKind.CodeGen
      title := "Implement solution"
      description := "Generate code changes to satisfy the requirements"
      priority := TaskPriority.High }
  let (base3, w3) := AgentTask.new "test" "test" AgentKind.Test w2
  let task3 : AgentTask :=
    { base3 with
      agent := AgentKind.Test
      title := "Run verification suite"
      description := "Execute unit and integration tests"
      priority := TaskPriority.Medium }
  let (base4, w4) := AgentTask.new "review" "review" AgentKind.Review w3
  let task4 : AgentTask :=
    { base4 with
      agent := AgentKind.Review
      title := "Review code changes"
      description := "Perform automated review of generated code"
      priority := TaskPriority.Medium }
  ([task1, task2, task3, task4], w4)

/-- `miyabi-agents/coordinator.rs`: the `for task in plan` loop inside
`orchestrate`, parametrized by the executor it invokes (`self.run` in the
source): on the first failing call the error propagates via `?`, discarding
the accumulated reports; otherwise each report is pushed in plan order. -/
def orchestrateLoop
    (run : AgentTask → AgentContext → World → Except Error (AgentOutcome × World)) :
    List AgentTask → AgentContext → World → List ExecutionReport →
    Except Error (List ExecutionReport × World)
  | [], _, w, reports => Except.ok (reports, w)
  | task :: rest, ctx, w, reports =>
    match run task ctx w with
    | Except.error e => Except.error e
    | Except.ok (outcome, w2) =>
      orchestrateLoop run rest ctx w2 (reports ++ [{ task := task, outcome := outcome }])

/-- `miyabi-agents/coordinator.rs`: `CoordinatorAgent::orchestrate` — builds
the plan, then runs the loop invoking the coordinator's own `run` on every
task, starting from an empty report list. -/
def CoordinatorAgent.orchestrate (work_item : WorkItem) (ctx : AgentContext)
    (w : World) : Except Error (List ExecutionReport × World) :=
  let (plan, w1) := CoordinatorAgent.build_plan work_item w
  orchestrateLoop CoordinatorAgent.run plan ctx w1 []

/-- `miyabi-agents/registry.rs`: `enum BuiltInAgent` (the single variant
carries the unit struct `CoordinatorAgent`, which has no data). -/
inductive BuiltInAgent where
  | Coordinator
deriving DecidableEq

/-- `miyabi-agents/registry.rs`: `struct AgentRegistry` — the
`HashMap<AgentKind, BuiltInAgent>` modelled as a partial map. -/
structure AgentRegistry where
  agents : AgentKind → Option BuiltInAgent

/-- `miyabi-agents/registry.rs`: `AgentRegistry::new` inserts the coordinator
under the `Coordinator` key. -/
def AgentRegistry.new : AgentRegistry :=
  { agents := fun k =>
      if k = AgentKind.Coordinator then some BuiltInAgent.Coordinator else none }

/-- `miyabi-agents/registry.rs`: `impl Default for AgentRegistry` delegates to
`Self::new()`. -/
def AgentRegistry.defaultRegistry : AgentRegistry := AgentRegistry.new

/-- `miyabi-agents/registry.rs`: `AgentRegistry::run_coordinator` — looks up
the `Coordinator` slot, errors with "Coordinator agent not registered" when
absent, otherwise forwards to `CoordinatorAgent::orchestrate`. -/
def AgentRegistry.run_coordinator (self : AgentRegistry) (ctx : AgentContext)
    (work_item : WorkItem) (w : World) :
    Except Error (List ExecutionReport × World) :=
  match self.agents AgentKind.Coordinator with
  | none => Except.error "Coordinator agent not registered"
  | some BuiltInAgent.Coordinator => CoordinatorAgent.orchestrate work_item ctx w

/-- The reports of a successful orchestration (the empty list when the call
errors; `orchestrate` never does). -/
def reportsOf (work_item : WorkItem) (ctx : AgentContext) (w : World) :
    List ExecutionReport :=
  match CoordinatorAgent.orchestrate work_item ctx w with
  | Except.ok (reports, _) => reports
  | Except.error _ => []

/-- Caller-side view of an `orchestrate` call: in Rust the work item is passed
by shared (immutable) borrow `&WorkItem`, so the caller's work item after the
call is the very value it passed in; this definition makes that explicit. -/
def orchestrateCallerView (work_item : WorkItem) (ctx : AgentContext)
    (w : World) :
    Except Error (List ExecutionReport × World) × WorkItem :=
  (CoordinatorAgent.orchestrate work_item ctx w, work_item)

/-- The id-and-timestamp-free part of a task: title, description, assigned
agent kind and priority (everything but the freshly drawn `id`). -/
def taskStatic (t : AgentTask) : String × String × AgentKind × TaskPriority :=
  (t.title, t.description, t.agent, t.priority)

/-- The id-and-timestamp-free part of an outcome: success flag, summary and
artifacts (everything but the `task_id` back-reference and `created_at`). -/
def outcomeStatic (o : AgentOutcome) : Bool × String × List Artifact :=
  (o.success, o.summary, o.artifacts)

/-- The id-and-timestamp-free part of an execution report. -/
def reportStatic (r : ExecutionReport) :
    (String × String × AgentKind × TaskPriority) × (Bool × String × List Artifact) :=
  (taskStatic r.task, outcomeStatic r.outcome)

/-- The id-and-timestamp-free reports of any orchestration, as a function of
the work item title alone. -/
def staticReports (title : String) :
    List ((String × String × AgentKind × TaskPriority) × (Bool × String × List Artifact)) :=
  [(("Analyze issue context",
     "Review the problem statement for \x27" ++ title ++ "\x27",
     AgentKind.Issue, TaskPriority.High),
    (true, "Task queued for specialist agents (simulated)", [])),
   (("Implement solution", "Generate code changes to satisfy the requirements",
     AgentKind.CodeGen, TaskPriority.High),
    (true, "Task queued for specialist agents (simulated)", [])),
   (("Run verification suite", "Execute unit and integration tests",
     AgentKind.Test, TaskPriority.Medium),
    (true, "Task queued for specialist agents (simulated)", [])),
   (("Review code changes", "Perform automated review of generated code",
     AgentKind.Review, TaskPriority.Medium),
    (true, "Task queued for specialist agents (simulated)", []))]

/-- A registry with no executor registered (the hypothetical variant the spec
mentions for the defensive error path). -/
def emptyRegistry : AgentRegistry := { agents := fun _ => none }

/-- The work item of the repository's own test scenario. -/
def sampleWorkItem : WorkItem :=
  { issue_number := some 42
    title := "Test feature"
    description := "Implement test feature"
    status := WorkItemStatus.Pending
    tasks := [] }

/-- A second work item sharing only the title with `sampleWorkItem`. -/
def sampleWorkItemB : WorkItem :=
  { issue_number := none
    title := "Test feature"
    description := "A different description"
    status := WorkItemStatus.InProgress
    tasks := [] }

/-- A concrete effect state. -/
def sampleWorld : World := { nextUuid := 0, now := 0 }

/-- A concrete task for exercising the orchestration loop. -/
def sampleTask : AgentTask :=
  { id := 0
    title := "t"
    description := "d"
    agent := AgentKind.Test
    priority := TaskPriority.Low }

/-- A hypothetical executor whose every call fails (the current coordinator
never fails; the loop is written to tolerate executors that do). -/
def failingRun : AgentTask → AgentContext → World → Except Error (AgentOutcome × World) :=
  fun _ _ _ => Except.error "simulated backend unavailable"

/-- Claim C1: for every work item, context and effect state, `orchestrate`
returns `Ok`; the report list has as many entries as `build_plan` produces
tasks (4); the i-th report's task is the i-th plan task; and every outcome's
success flag is true. -/
theorem orchestrate_matches_plan (work_item : WorkItem) (ctx : AgentContext)
    (w : World) :
    (CoordinatorAgent.orchestrate work_item ctx w).isOk = true ∧
    (reportsOf work_item ctx w).length
      = (CoordinatorAgent.build_plan work_item w).1.length ∧
    (reportsOf work_item ctx w).length = 4 ∧
    (reportsOf work_item ctx w).map ExecutionReport.task
      = (CoordinatorAgent.build_plan work_item w).1 ∧
    (reportsOf work_item ctx w).all (fun r => r.outcome.success) = true :=
  ⟨rfl, rfl, rfl, rfl, rfl⟩

/-- Claim C2: for every work item, `build_plan` returns exactly 4 tasks with
agent kinds `[Issue, CodeGen, Test, Review]` and priorities
`[High, High, Medium, Medium]`, in that order. -/
theorem build_plan_shape (work_item : WorkItem) (w : World) :
    (CoordinatorAgent.build_plan work_item w).1.length = 4 ∧
    (CoordinatorAgent.build_plan work_item w).1.map AgentTask.agent
      = [AgentKind.Issue, AgentKind.CodeGen, AgentKind.Test, AgentKind.Review] ∧
    (CoordinatorAgent.build_plan work_item w).1.map AgentTask.priority
      = [TaskPriority.High, TaskPriority.High, TaskPriority.Medium,
         TaskPriority.Medium] :=
  ⟨rfl, rfl, rfl⟩

/-- Claim C3: the orchestration loop fails fast. If the loop runs a prefix of
the plan successfully and the executor then fails on the next task, the whole
loop returns exactly that error, whatever tasks remain, and no report list
(not even a partial one) is returned. -/
theorem orchestrateLoop_fail_fast
    (run : AgentTask → AgentContext → World → Except Error (AgentOutcome × World))
    (ctx : AgentContext) (pre : List AgentTask) (task : AgentTask)
    (rest : List AgentTask) (w : World) (acc reps : List ExecutionReport)
    (w2 : World) (e : Error)
    (h1 : orchestrateLoop run pre ctx w acc = Except.ok (reps, w2))
    (h2 : run task ctx w2 = Except.error e) :
    orchestrateLoop run (pre ++ task :: rest) ctx w acc = Except.error e := by
  induction pre generalizing w acc with
  | nil =>
    simp only [orchestrateLoop, Except.ok.injEq, Prod.mk.injEq] at h1
    obtain ⟨hacc, hw⟩ := h1
    subst hacc
    subst hw
    simp only [List.nil_append, orchestrateLoop, h2]
  | cons p ps ih =>
    rw [List.cons_append]
    simp only [orchestrateLoop] at h1 ⊢
    cases hp : run p ctx w with
    | error err =>
      rw [hp] at h1
      exact Except.noConfusion h1
    | ok res =>
      obtain ⟨outcome, w3⟩ := res
      rw [hp] at h1
      exact ih w3 (acc ++ [{ task := p, outcome := outcome }]) h1

/-- Witness for C3: a one-task plan under an always-failing executor returns
the executor's error. -/
theorem orchestrateLoop_fail_fast_witness :
    orchestrateLoop failingRun [sampleTask] AgentContext.default sampleWorld []
      = Except.error "simulated backend unavailable" :=
  orchestrateLoop_fail_fast failingRun AgentContext.default [] sampleTask []
    sampleWorld [] [] sampleWorld "simulated backend unavailable" rfl rfl

/-- Claim C4: in every report produced by `orchestrate`, the outcome's
`task_id` equals the id of the task paired with it in the same report. -/
theorem orchestrate_outcome_task_id (work_item : WorkItem) (ctx : AgentContext)
    (w : World) :
    (reportsOf work_item ctx w).map (fun r => r.outcome.task_id)
      = (reportsOf work_item ctx w).map (fun r => r.task.id) :=
  rfl

/-- Claim C5: for every work item, the first plan task's description contains
the work item's title verbatim as a substring, and the four task titles are,
in order, "Analyze issue context", "Implement solution",
"Run verification suite", "Review code changes". -/
theorem build_plan_first_description_and_titles (work_item : WorkItem)
    (w : World) :
    (∃ p q, ((CoordinatorAgent.build_plan work_item w).1.map
        AgentTask.description).head? = some (p ++ work_item.title ++ q)) ∧
    (CoordinatorAgent.build_plan work_item w).1.map AgentTask.title
      = ["Analyze issue context", "Implement solution",
         "Run verification suite", "Review code changes"] :=
  ⟨⟨"Review the problem statement for \x27", "\x27", rfl⟩, rfl⟩

/-- Claim C6: no two tasks in one plan share an identifier: the four ids are
drawn fresh from the supply and are pairwise distinct. -/
theorem build_plan_ids_nodup (work_item : WorkItem) (w : World) :
    ((CoordinatorAgent.build_plan work_item w).1.map AgentTask.id).Nodup := by
  have h : (CoordinatorAgent.build_plan work_item w).1.map AgentTask.id
      = [w.nextUuid, w.nextUuid + 1, w.nextUuid + 2, w.nextUuid + 3] := rfl
  rw [h]
  simp [List.nodup_cons]

/-- Claim C7: after `AgentRegistry::new` (to which `Default` delegates) the
`Coordinator` slot is populated, `run_coordinator` forwards to the
coordinator's `orchestrate` and succeeds; on any registry whose `Coordinator`
slot is empty, `run_coordinator` returns the distinct
"Coordinator agent not registered" error. -/
theorem registry_coordinator_registered (ctx : AgentContext)
    (work_item : WorkItem) (w : World) (r : AgentRegistry)
    (habs : r.agents AgentKind.Coordinator = none) :
    AgentRegistry.new.agents AgentKind.Coordinator
      = some BuiltInAgent.Coordinator ∧
    AgentRegistry.defaultRegistry.agents AgentKind.Coordinator
      = some BuiltInAgent.Coordinator ∧
    AgentRegistry.new.run_coordinator ctx work_item w
      = CoordinatorAgent.orchestrate work_item ctx w ∧
    (AgentRegistry.new.run_coordinator ctx work_item w).isOk = true ∧
    r.run_coordinator ctx work_item w
      = Except.error "Coordinator agent not registered" := by
  refine ⟨rfl, rfl, rfl, rfl, ?_⟩
  simp only [AgentRegistry.run_coordinator, habs]

/-- Witness for C7: the default registry resolves the coordinator, and the
empty registry yields the registration error. -/
theorem registry_coordinator_registered_witness :
    AgentRegistry.new.agents AgentKind.Coordinator
      = some BuiltInAgent.Coordinator ∧
    emptyRegistry.run_coordinator AgentContext.default sampleWorkItem sampleWorld
      = Except.error "Coordinator agent not registered" := by
  have h := registry_coordinator_registered AgentContext.default sampleWorkItem
    sampleWorld emptyRegistry rfl
  exact ⟨h.1, h.2.2.2.2⟩

/-- Claim C8: for every task, context and effect state, the coordinator's
`run` returns `Ok` with a successful outcome whose summary says the task was
queued for specialist agents and whose artifacts list is empty. -/
theorem coordinator_run_success (task : AgentTask) (ctx : AgentContext)
    (w : World) :
    CoordinatorAgent.run task ctx w
      = Except.ok
          ({ task_id := task.id
             success := true
             summary := "Task queued for specialist agents (simulated)"
             artifacts := []
             created_at := w.now }, w) :=
  rfl

/-- Claim C9: `orchestrate` takes the work item by shared borrow, so the
caller's work item is unchanged by the call; in particular its status is
never set to `Completed` or `Failed` by the core. -/
theorem orchestrate_preserves_work_item (work_item : WorkItem)
    (ctx : AgentContext) (w : World) :
    (orchestrateCallerView work_item ctx w).2 = work_item ∧
    (orchestrateCallerView work_item ctx w).2.status = work_item.status :=
  ⟨rfl, rfl⟩

/-- Claim C10: modulo the freshly drawn task ids, the outcome `task_id`
back-references and the outcome timestamps, the reports of `orchestrate`
depend only on the work item's title: any two calls whose work items share a
title agree on every other field, whatever their other fields, contexts and
effect states. -/
theorem orchestrate_depends_only_on_title (wi1 wi2 : WorkItem)
    (ctx1 ctx2 : AgentContext) (w1 w2 : World) (h : wi1.title = wi2.title) :
    (reportsOf wi1 ctx1 w1).map reportStatic
      = (reportsOf wi2 ctx2 w2).map reportStatic := by
  have e1 : (reportsOf wi1 ctx1 w1).map reportStatic
      = staticReports wi1.title := rfl
  have e2 : (reportsOf wi2 ctx2 w2).map reportStatic
      = staticReports wi2.title := rfl
  rw [e1, e2, h]

/-- Witness for C10: two work items sharing only the title, run under
different contexts and effect states, produce identical reports up to ids and
timestamps. -/
theorem orchestrate_depends_only_on_title_witness :
    (reportsOf sampleWorkItem AgentContext.default sampleWorld).map reportStatic
      = (reportsOf sampleWorkItemB { environment := [("k", "v")] }
          { nextUuid := 7, now := 9 }).map reportStatic :=
  orchestrate_depends_only_on_title sampleWorkItem sampleWorkItemB
    AgentContext.default { environment := [("k", "v")] } sampleWorld
    { nextUuid := 7, now := 9 } rfl

end Miyabi
